import Mathlib

/-!
Verification of the grid-watcher SCADA IDS/IPS engine.

This file gives a shallow embedding of the engine's data model and
operations, translated from the C++ sources:

* `include/grid_watcher/monitor/logger.hpp` — `Logger`, `DetectionConfig`,
  `GridWatcher` (the hot-path `processPacket`, admin operations,
  `buildPacketMetadata`);
* `include/grid_watcher/processing/packet_processor.hpp` — `PacketQueue`,
  `PacketProcessor` (`submitPacket`, `workerThread`);
* `include/grid_watcher/capture/metrics.hpp` — `LatencyTracker`,
  `ThroughputTracker`;
* the `Statistics` counter block.

Components whose sources are not in the repository snapshot
(`performance/bloom_filter.hpp`, `scada/mitigation_engine.hpp`,
`scada/behavioral_analyzer.hpp`, `scada/modbus_parser.hpp`,
`scada/types.hpp`, `performance/lock_free.hpp`) are modelled from the
specification; each such definition carries a doc comment starting with
`Modelled from the spec:`.

Machine integers are modelled as `Nat`; the counters of interest never
approach 2^64 in any statement proved here, so wraparound is immaterial,
except for the explicit `UINT64_MAX` sentinel of `LatencyTracker`, which
is kept as the literal value 2^64 - 1.  Wall-clock and monotonic instants
are `Nat` nanoseconds supplied as explicit parameters.  `double` fields
are modelled as `ℚ`.
-/

namespace GridWatcher

/-- IPv4 address, modelled as its 32-bit numeric value (`net::ipv4`). -/
abbrev Ipv4 := Nat

/-- Translation of `ipv4::to_uint32`: the 32-bit value of the address. -/
def toUint32 (a : Ipv4) : Nat := a % 4294967296

/-- Modelled from the spec: attack kinds, as enumerated in the repository
API reference for `scada/types.hpp` (the header itself is not in the
snapshot). -/
inductive AttackType where
  | NONE
  | PORT_SCAN
  | DOS_FLOOD
  | MODBUS_COMMAND_INJECTION
  | UNAUTHORIZED_WRITE
  | ABNORMAL_TRAFFIC_PATTERN
  | SUSPICIOUS_FUNCTION_CODE
  | MALFORMED_PACKET
  | REPLAY_ATTACK
  | MAN_IN_THE_MIDDLE
  | BRUTE_FORCE
deriving DecidableEq, Repr

/-- Modelled from the spec: threat severity levels of `scada/types.hpp`. -/
inductive ThreatLevel where
  | INFO
  | LOW
  | MEDIUM
  | HIGH
  | CRITICAL
deriving DecidableEq, Repr

/-- Numeric rank of a severity level (the `uint8_t` enum value). -/
def ThreatLevel.rank : ThreatLevel → Nat
  | .INFO => 0
  | .LOW => 1
  | .MEDIUM => 2
  | .HIGH => 3
  | .CRITICAL => 4

/-- Modelled from the spec: protocol tags of `scada/types.hpp`. -/
inductive ProtocolType where
  | MODBUS_TCP
  | DNP3
  | IEC_104
  | OPC_UA
  | UNKNOWN
deriving DecidableEq, Repr

/-- Modelled from the spec: mitigation actions returned by the mitigation
engine (`scada/mitigation_engine.hpp` is not in the snapshot); the engine
code distinguishes `BLOCK_IP` and `DROP_PACKET` from the rest. -/
inductive MitigationAction where
  | LOG_ONLY
  | DROP_PACKET
  | BLOCK_IP
deriving DecidableEq, Repr

/-- Modelled from the spec: packet metadata (`scada/types.hpp` is not in
the snapshot; the field list follows the repository API reference).  The
Modbus function code is kept as its raw numeric value.  Default values
are zero/false with protocol `UNKNOWN`. -/
structure PacketMetadata where
  timestamp : Nat := 0
  source_ip : Ipv4 := 0
  dest_ip : Ipv4 := 0
  source_port : Nat := 0
  dest_port : Nat := 0
  protocol : ProtocolType := .UNKNOWN
  packet_size : Nat := 0
  transaction_id : Nat := 0
  unit_id : Nat := 0
  function_code : Nat := 0
  register_address : Nat := 0
  register_count : Nat := 0
  is_response : Bool := false
  has_exception : Bool := false
  is_malformed : Bool := false
deriving DecidableEq, Repr

/-- Modelled from the spec: threat alerts (`scada/types.hpp`). -/
structure ThreatAlert where
  timestamp : Nat := 0
  source_ip : Ipv4 := 0
  dest_ip : Ipv4 := 0
  attack_type : AttackType := .NONE
  severity : ThreatLevel := .INFO
  description : String := ""
  confidence_score : ℚ := 0
  auto_mitigated : Bool := false
deriving DecidableEq, Repr

/-- Translation of `scada::DetectionConfig`.  Durations are `Nat`
nanoseconds; `double` thresholds are `ℚ`. -/
structure DetectionConfig where
  port_scan_threshold : Nat := 10
  port_scan_window : Nat := 10000000000
  dos_packet_threshold : Nat := 1000
  dos_byte_threshold : Nat := 10000000
  dos_window : Nat := 5000000000
  write_read_ratio_threshold : ℚ := 5
  exception_rate_threshold : Nat := 10
  packet_size_deviation_threshold : ℚ := 3
  whitelisted_ips : List Ipv4 := []
  blacklisted_ips : List Ipv4 := []
  monitored_ports : List Nat := [502, 20000]
  auto_block_enabled : Bool := true
  auto_block_duration : Nat := 3600000000000
  max_concurrent_blocks : Nat := 1000
  packet_buffer_size : Nat := 4096
  log_queue_size : Nat := 8192
  worker_threads : Nat := 4
deriving DecidableEq, Repr

/-- Translation of `DetectionConfig::isValid`. -/
def DetectionConfig.isValid (c : DetectionConfig) : Bool :=
  decide (0 < c.dos_packet_threshold)
    && decide (0 < c.dos_byte_threshold)
    && decide (0 < c.port_scan_threshold)
    && decide (0 < c.max_concurrent_blocks)

/-- Translation of `DetectionConfig::createDefault`. -/
def DetectionConfig.createDefault : DetectionConfig := {}

/-- The `UINT64_MAX` sentinel used by `LatencyTracker` for the minimum
before any sample is recorded. -/
def UINT64_MAX : Nat := 18446744073709551615

/-- Translation of `capture::LatencyTracker` state: sample count, latency
sum, min (initialised to `UINT64_MAX`), max, and the 32-bucket
logarithmic histogram. -/
structure LatencyTracker where
  total_samples : Nat := 0
  total_latency_ns : Nat := 0
  min_latency_ns : Nat := UINT64_MAX
  max_latency_ns : Nat := 0
  histogram : List Nat := List.replicate 32 0
deriving DecidableEq, Repr

/-- Histogram bucket of `LatencyTracker::record`:
`min((63 - clzll(ns | 1)) / 2, 31)`; for a 64-bit value `63 - clzll(x)`
is `floor(log2 x)`. -/
def LatencyTracker.bucketOf (ns : Nat) : Nat :=
  min (Nat.log2 (ns ||| 1) / 2) 31

/-- Translation of `LatencyTracker::record`. -/
def LatencyTracker.record (t : LatencyTracker) (ns : Nat) : LatencyTracker :=
  let b := LatencyTracker.bucketOf ns
  { total_samples := t.total_samples + 1
    total_latency_ns := t.total_latency_ns + ns
    min_latency_ns := if ns < t.min_latency_ns then ns else t.min_latency_ns
    max_latency_ns := if ns > t.max_latency_ns then ns else t.max_latency_ns
    histogram := t.histogram.set b (t.histogram.getD b 0 + 1) }

/-- Translation of `LatencyTracker::Stats`. -/
structure LatencyStats where
  samples : Nat
  min_ns : Nat
  max_ns : Nat
  avg_ns : ℚ
  avg_us : ℚ
  avg_ms : ℚ
deriving DecidableEq, Repr

/-- Translation of `LatencyTracker::getStats`: when no sample has been
recorded all fields are zero; otherwise min/max/averages are derived. -/
def LatencyTracker.getStats (t : LatencyTracker) : LatencyStats :=
  if 0 < t.total_samples then
    let avg : ℚ := (t.total_latency_ns : ℚ) / (t.total_samples : ℚ)
    { samples := t.total_samples
      min_ns := t.min_latency_ns
      max_ns := t.max_latency_ns
      avg_ns := avg
      avg_us := avg / 1000
      avg_ms := avg / 1000 / 1000 }
  else
    { samples := 0, min_ns := 0, max_ns := 0, avg_ns := 0, avg_us := 0, avg_ms := 0 }

/-- Translation of `LatencyTracker::reset`. -/
def LatencyTracker.reset (_ : LatencyTracker) : LatencyTracker := {}

/-- One one-second slot of `capture::ThroughputTracker`. -/
structure ThroughputWindow where
  packets : Nat := 0
  bytes : Nat := 0
  timestamp_sec : Nat := 0
deriving DecidableEq, Repr

/-- Translation of `capture::ThroughputTracker`: 60 one-second slots. -/
structure ThroughputTracker where
  windows : List ThroughputWindow := List.replicate 60 {}
deriving DecidableEq, Repr

/-- Translation of `ThroughputTracker::record`: index by current second
mod 60, reset the slot when its timestamp differs, then add. -/
def ThroughputTracker.record (t : ThroughputTracker) (bytes now_ns : Nat) : ThroughputTracker :=
  let now_sec := now_ns / 1000000000
  let idx := now_sec % 60
  let w := t.windows.getD idx {}
  let w := if w.timestamp_sec ≠ now_sec then { packets := 0, bytes := 0, timestamp_sec := now_sec } else w
  { windows := t.windows.set idx { w with packets := w.packets + 1, bytes := w.bytes + bytes } }

/-- Translation of the `capture::Statistics` counter block. -/
structure Statistics where
  packets_processed : Nat := 0
  packets_allowed : Nat := 0
  packets_dropped : Nat := 0
  bytes_processed : Nat := 0
  threats_detected : Nat := 0
  threats_mitigated : Nat := 0
  total_blocks : Nat := 0
  active_blocks : Nat := 0
  start_time : Nat := 0
deriving DecidableEq, Repr

/-- Translation of `Statistics::incrementPacketsProcessed`. -/
def Statistics.incrementPacketsProcessed (s : Statistics) : Statistics :=
  { s with packets_processed := s.packets_processed + 1 }

/-- Translation of `Statistics::incrementPacketsAllowed`. -/
def Statistics.incrementPacketsAllowed (s : Statistics) : Statistics :=
  { s with packets_allowed := s.packets_allowed + 1 }

/-- Translation of `Statistics::incrementPacketsDropped`. -/
def Statistics.incrementPacketsDropped (s : Statistics) : Statistics :=
  { s with packets_dropped := s.packets_dropped + 1 }

/-- Translation of `Statistics::incrementThreatsDetected`. -/
def Statistics.incrementThreatsDetected (s : Statistics) : Statistics :=
  { s with threats_detected := s.threats_detected + 1 }

/-- Translation of `monitor::LogEntry::Level`. -/
inductive LogLevel where
  | TRACE
  | DEBUG
  | INFO
  | WARNING
  | ERROR
  | CRITICAL
deriving DecidableEq, Repr

/-- Numeric rank of a log level (the `uint8_t` enum value). -/
def LogLevel.rank : LogLevel → Nat
  | .TRACE => 0
  | .DEBUG => 1
  | .INFO => 2
  | .WARNING => 3
  | .ERROR => 4
  | .CRITICAL => 5

/-- Translation of `monitor::LogEntry`. -/
structure LogEntry where
  timestamp : Nat := 0
  level : LogLevel := .INFO
  source : String := ""
  message : String := ""
  threat : Option ThreatAlert := none
deriving DecidableEq, Repr

/-- Capacity of the log ring (`LockFreeRingBuffer<LogEntry, 8192>`). -/
def LOG_QUEUE_CAPACITY : Nat := 8192

/-- Translation of `monitor::Logger` state.  The lock-free ring buffer
(`performance/lock_free.hpp` is not in the snapshot) is, modelled from
the spec, a bounded FIFO: `push` fails when full, `pop` takes the oldest
record.  `written` is the ordered content of the sink (log file). -/
structure Logger where
  queue : List LogEntry := []
  written : List LogEntry := []
  running : Bool := false
  file_open : Bool := true
  min_level : LogLevel := .INFO
  console_output : Bool := true
  logs_written : Nat := 0
  logs_dropped : Nat := 0
deriving DecidableEq, Repr

/-- Translation of `Logger::writeLog`: append the formatted record to
the sink and count it. -/
def Logger.writeLog (l : Logger) (e : LogEntry) : Logger :=
  { l with written := l.written ++ [e], logs_written := l.logs_written + 1 }

/-- Translation of `Logger::log`: below the minimum level the record is
discarded; otherwise it is pushed to the ring, counting a drop when the
ring is full. -/
def Logger.log (l : Logger) (level : LogLevel) (source message : String)
    (threat : Option ThreatAlert) (now : Nat) : Logger :=
  if level.rank < l.min_level.rank then l
  else if l.queue.length < LOG_QUEUE_CAPACITY then
    { l with queue := l.queue ++ [{ timestamp := now, level := level, source := source,
                                    message := message, threat := threat }] }
  else
    { l with logs_dropped := l.logs_dropped + 1 }

/-- Translation of `Logger::start`. -/
def Logger.start (l : Logger) : Logger := { l with running := true }

/-- Translation of `Logger::stop`: a no-op unless running; otherwise the
writer is joined, every record still queued is written (the flush loop
`while (log_queue_.pop(entry)) writeLog(entry)`), and the file is
closed. -/
def Logger.stop (l : Logger) : Logger :=
  if l.running then
    let drained := l.queue.foldl Logger.writeLog { l with running := false }
    { drained with queue := [], file_open := false }
  else l

/-- Modelled from the spec: the bloom-filter address cache
(`performance/bloom_filter.hpp` is not in the snapshot).  The spec
(§4.A) requires `add` and `may_contain` with `add x` implying
`may_contain x`, and forbids removal.  It is modelled as the exact set
of added keys — one admissible bloom instance; none of the claims
settled here depends on hash-collision false positives. -/
structure BloomCache where
  keys : List Nat := []
deriving DecidableEq, Repr

/-- Bloom `add`: record the key; there is no removal operation. -/
def BloomCache.add (c : BloomCache) (k : Nat) : BloomCache :=
  { keys := k :: c.keys }

/-- Bloom `contains` (the spec calls it `may_contain`). -/
def BloomCache.contains (c : BloomCache) (k : Nat) : Bool :=
  c.keys.contains k

/-- Modelled from the spec: a block record of the mitigation table
(§4.B). -/
structure BlockRecord where
  ip : Ipv4 := 0
  blocked_at : Nat := 0
  expires_at : Nat := 0
  reason : AttackType := .NONE
  violation_count : Nat := 0
  permanent : Bool := false
deriving DecidableEq, Repr

/-- Modelled from the spec: the mitigation engine
(`scada/mitigation_engine.hpp` is not in the snapshot): the
authoritative map from source address to block record plus the
whitelist set (§4.B). -/
structure MitigationEngine where
  blocks : List BlockRecord := []
  whitelist : List Ipv4 := []
deriving DecidableEq, Repr

/-- Modelled from the spec: `is_blocked(addr, now)` is true iff a
non-expired record exists — a record with `now > expires_at` and not
permanent is logically absent (§4.B). -/
def MitigationEngine.isBlocked (m : MitigationEngine) (ip : Ipv4) (now : Nat) : Bool :=
  m.blocks.any (fun r => r.ip == ip && (r.permanent || decide (now ≤ r.expires_at)))

/-- Modelled from the spec: `block(addr, reason, duration, now)` (§4.B):
extend an existing record (`new expiry = max(existing, now + duration)`,
violation count + 1); otherwise insert, evicting the earliest-expiring
non-permanent record when the table holds `max_concurrent_blocks`
entries, refusing silently when all are permanent. -/
def MitigationEngine.block (m : MitigationEngine) (ip : Ipv4) (reason : AttackType)
    (duration now maxBlocks : Nat) : MitigationEngine :=
  if m.blocks.any (fun r => r.ip == ip) then
    { m with blocks := m.blocks.map (fun r =>
        if r.ip == ip then
          { r with expires_at := max r.expires_at (now + duration),
                   violation_count := r.violation_count + 1 }
        else r) }
  else
    let fresh : BlockRecord :=
      { ip := ip, blocked_at := now, expires_at := now + duration,
        reason := reason, violation_count := 1, permanent := false }
    if m.blocks.length < maxBlocks then
      { m with blocks := fresh :: m.blocks }
    else
      let victim := (m.blocks.filter (fun r => !r.permanent)).foldl
        (fun acc r => match acc with
          | none => some r
          | some b => if r.expires_at < b.expires_at then some r else some b) none
      match victim with
      | none => m
      | some v => { m with blocks := fresh :: m.blocks.eraseP (fun r => r.ip == v.ip) }

/-- Modelled from the spec: `unblock(addr)` removes the record and
reports whether one existed (§4.B). -/
def MitigationEngine.unblock (m : MitigationEngine) (ip : Ipv4) : Bool × MitigationEngine :=
  (m.blocks.any (fun r => r.ip == ip),
   { m with blocks := m.blocks.filter (fun r => !(r.ip == ip)) })

/-- Modelled from the spec: add an address to the authoritative
whitelist set. -/
def MitigationEngine.addWhitelistIp (m : MitigationEngine) (ip : Ipv4) : MitigationEngine :=
  { m with whitelist := ip :: m.whitelist }

/-- Modelled from the spec: remove an address from the authoritative
whitelist set. -/
def MitigationEngine.removeWhitelistIp (m : MitigationEngine) (ip : Ipv4) : MitigationEngine :=
  { m with whitelist := m.whitelist.filter (fun a => !(a == ip)) }

/-- Modelled from the spec: `cleanup(now)` removes expired records
(§4.B). -/
def MitigationEngine.cleanup (m : MitigationEngine) (now : Nat) : MitigationEngine :=
  { m with blocks := m.blocks.filter (fun r => r.permanent || decide (now ≤ r.expires_at)) }

/-- Modelled from the spec: `mitigate(threat)` applies the mitigation
policy of §4.F step 8: severity at least HIGH with auto-block enabled
blocks the source and returns `BLOCK_IP`; severity at least MEDIUM
drops the current packet only; anything lower is log-only.  (The spec
leaves HIGH severity with auto-block disabled unlisted; dropping the
current packet is the conservative reading adopted here.) -/
def MitigationEngine.mitigate (m : MitigationEngine) (cfg : DetectionConfig)
    (alert : ThreatAlert) : MitigationAction × MitigationEngine :=
  if ThreatLevel.rank .HIGH ≤ alert.severity.rank && cfg.auto_block_enabled then
    (.BLOCK_IP, m.block alert.source_ip alert.attack_type cfg.auto_block_duration
       alert.timestamp cfg.max_concurrent_blocks)
  else if ThreatLevel.rank .MEDIUM ≤ alert.severity.rank then
    (.DROP_PACKET, m)
  else
    (.LOG_ONLY, m)

/-- Translation of the `scada::GridWatcher` engine state.  The
behavioral analyzer (`scada/behavioral_analyzer.hpp`), the mitigation
rate pre-check `shouldDropPacket`, the Modbus recogniser `isModbusTCP`
and `ModbusParser::parse` are not in the snapshot; the spec leaves the
pre-check implementation-defined (§4.F step 5, §9) and none of the
claims settled here depends on the analyzer rules or the parser output,
so, modelled from the spec, they are carried as unconstrained function
fields — every theorem below therefore holds for all of their
behaviours. -/
structure Engine where
  config : DetectionConfig
  mitigation : MitigationEngine := {}
  logger : Logger := {}
  stats : Statistics := {}
  packet_latency : LatencyTracker := {}
  threat_latency : LatencyTracker := {}
  throughput : ThroughputTracker := {}
  blocked_ips_cache : BloomCache := {}
  whitelisted_ips_cache : BloomCache := {}
  analyzer : PacketMetadata → List ThreatAlert
  should_drop_precheck : PacketMetadata → Bool
  is_modbus_tcp : List Nat → Bool
  parse_modbus : List Nat → Option PacketMetadata
  running : Bool := false

/-- The minimal metadata `buildPacketMetadata` starts from: size,
addresses, ports and arrival instant only; every other field keeps its
default. -/
def minimalMetadata (packet_data : List Nat) (source_ip dest_ip : Ipv4)
    (source_port dest_port now : Nat) : PacketMetadata :=
  { source_ip := source_ip, dest_ip := dest_ip, source_port := source_port,
    dest_port := dest_port, packet_size := packet_data.length, timestamp := now }

/-- Translation of `GridWatcher::buildPacketMetadata`: the Modbus branch
runs exactly when the destination or source port equals 502; on a
successful parse the parser result is taken with the addresses and
ports restored, on failure `is_malformed` is set, and the branch always
tags the protocol `MODBUS_TCP`; any other port yields the minimal
metadata. -/
def buildPacketMetadata (is_modbus : List Nat → Bool)
    (parse : List Nat → Option PacketMetadata)
    (packet_data : List Nat) (source_ip dest_ip : Ipv4)
    (source_port dest_port now : Nat) : PacketMetadata :=
  let meta := minimalMetadata packet_data source_ip dest_ip source_port dest_port now
  if dest_port == 502 || source_port == 502 then
    let meta :=
      if is_modbus packet_data then
        match parse packet_data with
        | some parsed =>
          { parsed with source_ip := source_ip, dest_ip := dest_ip,
                        source_port := source_port, dest_port := dest_port }
        | none => { meta with is_malformed := true }
      else { meta with is_malformed := true }
    { meta with protocol := .MODBUS_TCP }
  else meta

/-- One iteration of the threat loop of `GridWatcher::processPacket`:
count the threat, log it at CRITICAL, run the mitigation policy, add
the source to the blocked cache on `BLOCK_IP`, and accumulate the drop
flag for `DROP_PACKET` and `BLOCK_IP`. -/
def Engine.processThreat (src_ip_int now : Nat) (acc : Engine × Bool)
    (threat : ThreatAlert) : Engine × Bool :=
  let e := acc.1
  let e := { e with stats := e.stats.incrementThreatsDetected }
  let e := { e with logger := e.logger.log .CRITICAL "ThreatDetector" threat.description (some threat) now }
  let am := e.mitigation.mitigate e.config threat
  let e := { e with mitigation := am.2 }
  let e := if am.1 = .BLOCK_IP then
      { e with blocked_ips_cache := e.blocked_ips_cache.add src_ip_int }
    else e
  (e, acc.2 || (am.1 == .DROP_PACKET || am.1 == .BLOCK_IP))

/-- The analysis tail of `GridWatcher::processPacket` (after the two
fast paths and the rate pre-check declined to decide): run the
behavioral analyzer, record the threat-detection latency, process each
threat alert, then settle the final allow/drop, the matching counter,
the throughput sample on allow, and the packet-latency sample. -/
def Engine.analysisPath (e : Engine) (now src_ip_int : Nat) (packet_data : List Nat)
    (meta : PacketMetadata) (elapsed_ns threat_elapsed_ns : Nat) : Engine × Bool :=
  let threats := e.analyzer meta
  let e := { e with threat_latency := e.threat_latency.record threat_elapsed_ns }
  let r := threats.foldl (Engine.processThreat src_ip_int now) (e, false)
  let e := r.1
  let should_drop := r.2
  let e :=
    if should_drop then { e with stats := e.stats.incrementPacketsDropped }
    else { e with stats := e.stats.incrementPacketsAllowed,
                  throughput := e.throughput.record packet_data.length now }
  ({ e with packet_latency := e.packet_latency.record elapsed_ns }, !should_drop)

/-- Translation of `GridWatcher::processPacket` — the hot path.  `now`
is the arrival instant; `elapsed_ns` and `threat_elapsed_ns` stand for
the wall-clock durations the code measures for the packet-latency and
threat-latency trackers (real time is outside the embedding; only the
recorded sample counts matter to the claims).  Returns the updated
state and the decision (`true` = allow, `false` = drop). -/
def Engine.processPacket (e : Engine) (now : Nat) (packet_data : List Nat)
    (source_ip dest_ip : Ipv4) (source_port dest_port : Nat)
    (elapsed_ns threat_elapsed_ns : Nat) : Engine × Bool :=
  let e := { e with stats := e.stats.incrementPacketsProcessed }
  let src_ip_int := toUint32 source_ip
  if e.whitelisted_ips_cache.contains src_ip_int then
    ({ e with stats := e.stats.incrementPacketsAllowed,
              throughput := e.throughput.record packet_data.length now }, true)
  else if e.blocked_ips_cache.contains src_ip_int
          && e.mitigation.isBlocked source_ip now then
    ({ e with stats := e.stats.incrementPacketsDropped,
              packet_latency := e.packet_latency.record elapsed_ns }, false)
  else
    let meta := buildPacketMetadata e.is_modbus_tcp e.parse_modbus packet_data
      source_ip dest_ip source_port dest_port now
    if e.should_drop_precheck meta then
      ({ e with stats := e.stats.incrementPacketsDropped,
                packet_latency := e.packet_latency.record elapsed_ns }, false)
    else
      e.analysisPath now src_ip_int packet_data meta elapsed_ns threat_elapsed_ns

/-- Translation of the `GridWatcher` constructor: store the
configuration, hand it to the mitigation engine (with its whitelist
set), seed the whitelist bloom cache from `config.whitelisted_ips`,
start the logger and log the initialisation message.  The constructor
performs no configuration validation. -/
def Engine.init (cfg : DetectionConfig)
    (analyzer : PacketMetadata → List ThreatAlert)
    (should_drop_precheck : PacketMetadata → Bool)
    (is_modbus_tcp : List Nat → Bool)
    (parse_modbus : List Nat → Option PacketMetadata)
    (now : Nat) : Engine :=
  let cache := cfg.whitelisted_ips.foldl (fun c ip => c.add (toUint32 ip)) {}
  let logger := Logger.start {}
  let logger := logger.log .INFO "GridWatcher" "Grid-Watcher initialized successfully" none now
  { config := cfg
    mitigation := { whitelist := cfg.whitelisted_ips }
    logger := logger
    whitelisted_ips_cache := cache
    analyzer := analyzer
    should_drop_precheck := should_drop_precheck
    is_modbus_tcp := is_modbus_tcp
    parse_modbus := parse_modbus }

/-- Translation of `GridWatcher::blockIP`: block in the mitigation
engine for `auto_block_duration`, add to the blocked bloom cache, log a
warning. -/
def Engine.blockIP (e : Engine) (ip : Ipv4) (reason : AttackType) (now : Nat) : Engine :=
  { e with mitigation := e.mitigation.block ip reason e.config.auto_block_duration now
             e.config.max_concurrent_blocks,
           blocked_ips_cache := e.blocked_ips_cache.add (toUint32 ip),
           logger := e.logger.log .WARNING "ManualControl" "IP manually blocked" none now }

/-- Translation of `GridWatcher::unblockIP`: remove from the mitigation
table; log only when a record existed.  The blocked bloom cache is not
touched. -/
def Engine.unblockIP (e : Engine) (ip : Ipv4) (now : Nat) : Engine :=
  let r := e.mitigation.unblock ip
  let e := { e with mitigation := r.2 }
  if r.1 then
    { e with logger := e.logger.log .INFO "ManualControl" "IP manually unblocked" none now }
  else e

/-- Translation of `GridWatcher::addWhitelist`: add to the mitigation
whitelist and to the whitelist bloom cache, log. -/
def Engine.addWhitelist (e : Engine) (ip : Ipv4) (now : Nat) : Engine :=
  { e with mitigation := e.mitigation.addWhitelistIp ip,
           whitelisted_ips_cache := e.whitelisted_ips_cache.add (toUint32 ip),
           logger := e.logger.log .INFO "ManualControl" "IP added to whitelist" none now }

/-- Translation of `GridWatcher::removeWhitelist`: remove from the
mitigation whitelist and log.  The whitelist bloom cache is not
touched. -/
def Engine.removeWhitelist (e : Engine) (ip : Ipv4) (now : Nat) : Engine :=
  { e with mitigation := e.mitigation.removeWhitelistIp ip,
           logger := e.logger.log .INFO "ManualControl" "IP removed from whitelist" none now }

/-- Translation of `processing::PacketJob` (without the atomic result
flags, which are per-job outputs). -/
structure PacketJob where
  received_at : Nat := 0
  data : List Nat := []
  source_ip : Ipv4 := 0
  dest_ip : Ipv4 := 0
  source_port : Nat := 0
  dest_port : Nat := 0
deriving DecidableEq, Repr

/-- Capacity of the ingestion queue (`PacketQueue<32768>`). -/
def PACKET_QUEUE_CAPACITY : Nat := 32768

/-- Translation of `PacketQueue<Capacity>::enqueue` at the FIFO level of
abstraction: the Vyukov MPMC queue accepts a job exactly when fewer than
`Capacity` jobs are pending, else reports full.  The capacity is the
template parameter. -/
def PacketQueue.enqueue (capacity : Nat) (queue : List PacketJob) (job : PacketJob) :
    Option (List PacketJob) :=
  if queue.length < capacity then some (queue ++ [job]) else none

/-- Translation of `processing::PacketProcessor` state; `capacity` is
the `PacketQueue` template instantiation (32768 in the source). -/
structure Processor where
  capacity : Nat := PACKET_QUEUE_CAPACITY
  queue : List PacketJob := []
  packets_queued : Nat := 0
  packets_processed : Nat := 0
  packets_dropped_queue_full : Nat := 0
  running : Bool := false
deriving DecidableEq, Repr

/-- Translation of `PacketProcessor::submitPacket`: build the job; on a
successful enqueue count it queued and return `true`; when the queue is
full count a queue-full drop and return `false`. -/
def Processor.submitPacket (p : Processor) (data : List Nat)
    (src_ip dst_ip : Ipv4) (src_port dst_port now : Nat) : Processor × Bool :=
  let job : PacketJob :=
    { received_at := now, data := data, source_ip := src_ip, dest_ip := dst_ip,
      source_port := src_port, dest_port := dst_port }
  match PacketQueue.enqueue p.capacity p.queue job with
  | some q => ({ p with queue := q, packets_queued := p.packets_queued + 1 }, true)
  | none => ({ p with packets_dropped_queue_full := p.packets_dropped_queue_full + 1 }, false)

/-- A submission request, used to iterate `submitPacket`. -/
structure SubmitRequest where
  data : List Nat := []
  source_ip : Ipv4 := 0
  dest_ip : Ipv4 := 0
  source_port : Nat := 0
  dest_port : Nat := 0
  now : Nat := 0
deriving DecidableEq, Repr

/-- Iterated `submitPacket` with no intervening dequeue. -/
def Processor.submitMany : Processor → List SubmitRequest → Processor
  | p, [] => p
  | p, r :: rest =>
    Processor.submitMany
      (p.submitPacket r.data r.source_ip r.dest_ip r.source_port r.dest_port r.now).1 rest

/-- Translation of `PacketProcessor::workerThread` for a fixed observed
value of the `running_` flag: the loop guard re-reads `running_` before
every dequeue, so once `stop()` has cleared it the thread returns
immediately, leaving the queue as it stands; while the flag reads true
the worker dequeues a job, runs it through `processPacket` via `proc`,
and publishes the decision.  (The live loop yields and re-polls on an
empty queue; the model returns the processed snapshot.)  Results:
final engine state, the published decisions in order, and the jobs left
in the queue. -/
def Processor.workerThread (running : Bool) (proc : Engine → PacketJob → Engine × Bool) :
    Engine → List PacketJob → Engine × List Bool × List PacketJob
  | e, [] => (e, [], [])
  | e, job :: rest =>
    if running then
      let r := proc e job
      let rec_ := Processor.workerThread running proc r.1 rest
      (rec_.1, r.2 :: rec_.2.1, rec_.2.2)
    else (e, [], job :: rest)

/-- Translation of `PacketProcessor::stop`: clear `running_` and join
the workers; nothing drains the queue. -/
def Processor.stop (p : Processor) : Processor :=
  if p.running then { p with running := false } else p

/-- A trivial analyzer (no threats), used for concrete instances. -/
def trivAnalyzer : PacketMetadata → List ThreatAlert := fun _ => []

/-- A trivial rate pre-check (never drop), used for concrete instances. -/
def trivPrecheck : PacketMetadata → Bool := fun _ => false

/-- A trivial Modbus recogniser, used for concrete instances. -/
def trivIsModbus : List Nat → Bool := fun _ => false

/-- A trivial Modbus parse function, used for concrete instances. -/
def trivParse : List Nat → Option PacketMetadata := fun _ => none

/-- A freshly constructed engine with the default configuration. -/
def sampleEngine : Engine :=
  Engine.init DetectionConfig.createDefault trivAnalyzer trivPrecheck trivIsModbus trivParse 0

/-!  Helper lemmas. -/

/-- One threat-loop iteration leaves the packet counters and the
packet-latency tracker untouched. -/
lemma processThreat_preserves (k now : Nat) (acc : Engine × Bool) (t : ThreatAlert) :
    ((Engine.processThreat k now acc t).1.stats.packets_processed = acc.1.stats.packets_processed)
  ∧ ((Engine.processThreat k now acc t).1.stats.packets_allowed = acc.1.stats.packets_allowed)
  ∧ ((Engine.processThreat k now acc t).1.stats.packets_dropped = acc.1.stats.packets_dropped)
  ∧ ((Engine.processThreat k now acc t).1.packet_latency = acc.1.packet_latency) := by
  unfold Engine.processThreat
  dsimp only
  split <;> simp [Statistics.incrementThreatsDetected]

/-- The whole threat loop leaves the packet counters and the
packet-latency tracker untouched. -/
lemma foldl_processThreat_preserves (k now : Nat) :
    ∀ (ts : List ThreatAlert) (e : Engine) (b : Bool),
    ((ts.foldl (Engine.processThreat k now) (e, b)).1.stats.packets_processed = e.stats.packets_processed)
  ∧ ((ts.foldl (Engine.processThreat k now) (e, b)).1.stats.packets_allowed = e.stats.packets_allowed)
  ∧ ((ts.foldl (Engine.processThreat k now) (e, b)).1.stats.packets_dropped = e.stats.packets_dropped)
  ∧ ((ts.foldl (Engine.processThreat k now) (e, b)).1.packet_latency = e.packet_latency) := by
  intro ts
  induction ts with
  | nil => intro e b; simp
  | cons t rest ih =>
    intro e b
    obtain ⟨h1, h2, h3, h4⟩ := processThreat_preserves k now (e, b) t
    obtain ⟨g1, g2, g3, g4⟩ :=
      ih (Engine.processThreat k now (e, b) t).1 (Engine.processThreat k now (e, b) t).2
    simp only [List.foldl_cons]
    rw [show Engine.processThreat k now (e, b) t
          = ((Engine.processThreat k now (e, b) t).1, (Engine.processThreat k now (e, b) t).2) from rfl] at *
    exact ⟨by rw [g1, h1], by rw [g2, h2], by rw [g3, h3], by rw [g4, h4]⟩

/-- Draining a queue through `writeLog` appends it to the sink in order
and counts each record. -/
lemma foldl_writeLog (q : List LogEntry) :
    ∀ l : Logger,
    ((q.foldl Logger.writeLog l).written = l.written ++ q)
  ∧ ((q.foldl Logger.writeLog l).logs_written = l.logs_written + q.length)
  ∧ ((q.foldl Logger.writeLog l).queue = l.queue)
  ∧ ((q.foldl Logger.writeLog l).file_open = l.file_open)
  ∧ ((q.foldl Logger.writeLog l).running = l.running) := by
  induction q with
  | nil => intro l; simp
  | cons e rest ih =>
    intro l
    obtain ⟨g1, g2, g3, g4, g5⟩ := ih (l.writeLog e)
    simp only [List.foldl_cons]
    refine ⟨?_, ?_, ?_, ?_, ?_⟩
    · rw [g1]; simp [Logger.writeLog]
    · rw [g2]; simp [Logger.writeLog]; omega
    · rw [g3]; rfl
    · rw [g4]; rfl
    · rw [g5]; rfl


/-!  Claim theorems. -/

/-- C10: if no latency sample has ever been recorded (the sample count
is zero, as in the initial and reset states), `LatencyTracker::getStats`
returns a `Stats` value with `samples = 0` and `min_ns`, `max_ns`,
`avg_ns`, `avg_us`, `avg_ms` all zero; in particular the internal
`UINT64_MAX` minimum sentinel is not exposed. -/
theorem C10_getStats_no_samples_all_zero (t : LatencyTracker) (h : t.total_samples = 0) :
    t.getStats = { samples := 0, min_ns := 0, max_ns := 0, avg_ns := 0, avg_us := 0, avg_ms := 0 } := by
  unfold LatencyTracker.getStats
  rw [h]
  simp

/-- C10 witness: the initial tracker has zero samples and carries the
`UINT64_MAX` sentinel internally, yet `getStats` reports all zeros. -/
theorem C10_witness :
    (({} : LatencyTracker).total_samples = 0)
  ∧ (({} : LatencyTracker).min_latency_ns = UINT64_MAX)
  ∧ (({} : LatencyTracker).getStats
      = { samples := 0, min_ns := 0, max_ns := 0, avg_ns := 0, avg_us := 0, avg_ms := 0 }) :=
  ⟨rfl, rfl, C10_getStats_no_samples_all_zero {} rfl⟩

/-- C7: stopping a running logger writes every record still queued in
the ring to the sink, in order, before the file is closed; the queue is
left empty, so no accepted record is lost at shutdown. -/
theorem C7_stop_drains_queue_before_close (l : Logger) (h : l.running = true) :
    (l.stop.written = l.written ++ l.queue)
  ∧ (l.stop.queue = [])
  ∧ (l.stop.file_open = false)
  ∧ (l.stop.logs_written = l.logs_written + l.queue.length) := by
  have hstop : l.stop
      = { l.queue.foldl Logger.writeLog { l with running := false } with
          queue := [], file_open := false } := by
    unfold Logger.stop
    rw [h]
    rfl
  obtain ⟨g1, g2, g3, g4, g5⟩ := foldl_writeLog l.queue { l with running := false }
  rw [hstop]
  exact ⟨by simpa using g1, rfl, rfl, by simpa using g2⟩

/-- C7 witness: a running logger with two queued records and one already
written; `stop` appends both queued records to the sink. -/
theorem C7_witness :
    let l : Logger := { queue := [{ message := "a" }, { message := "b" }],
                        written := [{ message := "z" }], running := true,
                        logs_written := 1 }
    (l.stop.written = l.written ++ l.queue)
  ∧ (l.stop.queue = [])
  ∧ (l.stop.file_open = false)
  ∧ (l.stop.logs_written = l.logs_written + l.queue.length) :=
  C7_stop_drains_queue_before_close _ rfl

/-- On the analysis path the processed counter is preserved and exactly
one of the allowed/dropped counters advances by one, matching the
decision. -/
lemma analysisPath_counters (e : Engine) (now k : Nat) (packet_data : List Nat)
    (meta : PacketMetadata) (ens tns : Nat) :
    ((e.analysisPath now k packet_data meta ens tns).1.stats.packets_processed
        = e.stats.packets_processed)
  ∧ ((e.analysisPath now k packet_data meta ens tns).2 = true →
        ((e.analysisPath now k packet_data meta ens tns).1.stats.packets_allowed
            = e.stats.packets_allowed + 1)
      ∧ ((e.analysisPath now k packet_data meta ens tns).1.stats.packets_dropped
            = e.stats.packets_dropped))
  ∧ ((e.analysisPath now k packet_data meta ens tns).2 = false →
        ((e.analysisPath now k packet_data meta ens tns).1.stats.packets_dropped
            = e.stats.packets_dropped + 1)
      ∧ ((e.analysisPath now k packet_data meta ens tns).1.stats.packets_allowed
            = e.stats.packets_allowed)) := by
  unfold Engine.analysisPath
  dsimp only
  obtain ⟨p1, p2, p3, p4⟩ := foldl_processThreat_preserves k now (e.analyzer meta)
    { e with threat_latency := e.threat_latency.record tns } false
  split
  case isTrue hdrop =>
    refine ⟨?_, ?_, ?_⟩
    · simpa [Statistics.incrementPacketsDropped] using p1
    · intro ht
      rw [hdrop] at ht
      exact absurd ht (by decide)
    · intro _
      constructor
      · simpa [Statistics.incrementPacketsDropped] using p3
      · simpa [Statistics.incrementPacketsDropped] using p2
  case isFalse hdrop =>
    refine ⟨?_, ?_, ?_⟩
    · simpa [Statistics.incrementPacketsAllowed] using p1
    · intro _
      constructor
      · simpa [Statistics.incrementPacketsAllowed] using p2
      · simpa [Statistics.incrementPacketsAllowed] using p3
    · intro hf
      rw [Bool.not_eq_false'] at hf
      rw [hf] at hdrop
      exact absurd rfl hdrop

/-- C3: every call to `processPacket` returns exactly one boolean
decision (allow = `true`, drop = `false`), increments
`packets_processed` by exactly one, and increments exactly the counter
matching the decision — `packets_allowed` on allow, `packets_dropped`
on drop — leaving the other unchanged, on every control-flow path
(whitelist fast path, block short-circuit, rate pre-check drop, and
the post-analysis path), for every analyzer, pre-check, and parser
behaviour. -/
theorem C3_processPacket_exactly_one_counter (e : Engine) (now : Nat) (data : List Nat)
    (sip dip : Ipv4) (sp dp ens tns : Nat) :
    ((e.processPacket now data sip dip sp dp ens tns).1.stats.packets_processed
        = e.stats.packets_processed + 1)
  ∧ ((e.processPacket now data sip dip sp dp ens tns).2 = true →
        ((e.processPacket now data sip dip sp dp ens tns).1.stats.packets_allowed
            = e.stats.packets_allowed + 1)
      ∧ ((e.processPacket now data sip dip sp dp ens tns).1.stats.packets_dropped
            = e.stats.packets_dropped))
  ∧ ((e.processPacket now data sip dip sp dp ens tns).2 = false →
        ((e.processPacket now data sip dip sp dp ens tns).1.stats.packets_dropped
            = e.stats.packets_dropped + 1)
      ∧ ((e.processPacket now data sip dip sp dp ens tns).1.stats.packets_allowed
            = e.stats.packets_allowed)) := by
  unfold Engine.processPacket
  dsimp only
  split
  · exact ⟨rfl, fun _ => ⟨rfl, rfl⟩, fun hf => by simp at hf⟩
  · split
    · exact ⟨rfl, fun ht => by simp at ht, fun _ => ⟨rfl, rfl⟩⟩
    · split
      · exact ⟨rfl, fun ht => by simp at ht, fun _ => ⟨rfl, rfl⟩⟩
      · exact analysisPath_counters _ now (toUint32 sip) data _ ens tns

/-- C3 witness: a concrete allowed packet on the fresh default engine:
the decision is allow, `packets_processed` and `packets_allowed` each
advance by one, `packets_dropped` does not. -/
theorem C3_witness :
    ((sampleEngine.processPacket 5 [1, 2, 3] 10 20 5000 502 40 7).1.stats.packets_processed
        = sampleEngine.stats.packets_processed + 1)
  ∧ ((sampleEngine.processPacket 5 [1, 2, 3] 10 20 5000 502 40 7).2 = true)
  ∧ ((sampleEngine.processPacket 5 [1, 2, 3] 10 20 5000 502 40 7).1.stats.packets_allowed
        = sampleEngine.stats.packets_allowed + 1)
  ∧ ((sampleEngine.processPacket 5 [1, 2, 3] 10 20 5000 502 40 7).1.stats.packets_dropped
        = sampleEngine.stats.packets_dropped) :=
  ⟨(C3_processPacket_exactly_one_counter sampleEngine 5 [1, 2, 3] 10 20 5000 502 40 7).1,
   rfl,
   ((C3_processPacket_exactly_one_counter sampleEngine 5 [1, 2, 3] 10 20 5000 502 40 7).2.1 rfl).1,
   ((C3_processPacket_exactly_one_counter sampleEngine 5 [1, 2, 3] 10 20 5000 502 40 7).2.1 rfl).2⟩

/-- An engine on which an address was whitelisted and then removed from
the whitelist: the bloom cache still holds the address while the
authoritative whitelist does not. -/
def staleCacheEngine : Engine :=
  (sampleEngine.addWhitelist 77 1).removeWhitelist 77 2

/-- C1 counterexample: on `staleCacheEngine` the whitelist cache hits
for source 77 while 77 is not in the authoritative whitelist, yet
`processPacket` returns allow with no packet-latency sample recorded —
the signature of the whitelist short-circuit (every non-short-circuit
path records one sample).  The cache hit is not verified and does not
fall through. -/
theorem C1_counterexample :
    (staleCacheEngine.whitelisted_ips_cache.contains (toUint32 77) = true)
  ∧ (staleCacheEngine.mitigation.whitelist.contains 77 = false)
  ∧ ((staleCacheEngine.processPacket 3 [1, 2] 77 5 1000 502 10 4).2 = true)
  ∧ ((staleCacheEngine.processPacket 3 [1, 2] 77 5 1000 502 10 4).1.packet_latency
        = staleCacheEngine.packet_latency) :=
  ⟨rfl, rfl, rfl, rfl⟩

/-- C1 (amended): whenever the whitelist cache reports
`may_contain(src)`, `processPacket` returns allow through the
short-circuit immediately — counting the packet allowed, recording no
packet-latency sample, and leaving the mitigation engine (and so the
authoritative whitelist) untouched and unconsulted: the decision is
allow for every mitigation state, so cache hits that are not in the
authoritative whitelist are allowed rather than falling through. -/
theorem C1_amended_whitelist_cache_hit_allows (e : Engine) (now : Nat) (data : List Nat)
    (sip dip : Ipv4) (sp dp ens tns : Nat)
    (h : e.whitelisted_ips_cache.contains (toUint32 sip) = true) :
    ((e.processPacket now data sip dip sp dp ens tns).2 = true)
  ∧ ((e.processPacket now data sip dip sp dp ens tns).1.stats.packets_allowed
        = e.stats.packets_allowed + 1)
  ∧ ((e.processPacket now data sip dip sp dp ens tns).1.packet_latency = e.packet_latency)
  ∧ ((e.processPacket now data sip dip sp dp ens tns).1.mitigation = e.mitigation) := by
  unfold Engine.processPacket
  dsimp only
  rw [if_pos h]
  exact ⟨rfl, rfl, rfl, rfl⟩

/-- C1 witness: on `staleCacheEngine` the amended claim applies with
its cache-hit hypothesis discharged by evaluation. -/
theorem C1_witness :
    ((staleCacheEngine.processPacket 3 [1, 2] 77 5 1000 502 10 4).2 = true)
  ∧ ((staleCacheEngine.processPacket 3 [1, 2] 77 5 1000 502 10 4).1.stats.packets_allowed
        = staleCacheEngine.stats.packets_allowed + 1)
  ∧ ((staleCacheEngine.processPacket 3 [1, 2] 77 5 1000 502 10 4).1.packet_latency
        = staleCacheEngine.packet_latency)
  ∧ ((staleCacheEngine.processPacket 3 [1, 2] 77 5 1000 502 10 4).1.mitigation
        = staleCacheEngine.mitigation) :=
  C1_amended_whitelist_cache_hit_allows staleCacheEngine 3 [1, 2] 77 5 1000 502 10 4 rfl

/-- An engine on which an address was whitelisted and then manually
blocked: the address has an active block record and also hits the
whitelist cache. -/
def whitelistedBlockedEngine : Engine :=
  (sampleEngine.addWhitelist 42 1).blockIP 42 .NONE 2

/-- C2 counterexample: on `whitelistedBlockedEngine` the source 42 has
an active, non-expired block record at processing time, yet
`processPacket` returns allow (the whitelist fast path runs first) and
`packets_dropped` is not incremented — refuting the claim that such a
packet is always dropped. -/
theorem C2_counterexample :
    (whitelistedBlockedEngine.mitigation.isBlocked 42 3 = true)
  ∧ ((whitelistedBlockedEngine.processPacket 3 [9] 42 7 1000 502 11 5).2 = true)
  ∧ ((whitelistedBlockedEngine.processPacket 3 [9] 42 7 1000 502 11 5).1.stats.packets_dropped
        = whitelistedBlockedEngine.stats.packets_dropped) := by
  refine ⟨by decide, rfl, rfl⟩

/-- C2 (amended): every block created through the engine adds the
address to the blocked cache, and a packet whose source has an active,
non-expired block record is dropped — with `packets_dropped`
incremented and `packets_allowed` unchanged — provided the source does
not hit the whitelist cache (a whitelist-cache hit is allowed first and
overrides the block). -/
theorem C2_amended_blocked_source_dropped :
    (∀ (e : Engine) (ip : Ipv4) (reason : AttackType) (now : Nat),
        (e.blockIP ip reason now).blocked_ips_cache.contains (toUint32 ip) = true)
  ∧ (∀ (e : Engine) (now : Nat) (data : List Nat) (sip dip : Ipv4) (sp dp ens tns : Nat),
        e.whitelisted_ips_cache.contains (toUint32 sip) = false →
        e.blocked_ips_cache.contains (toUint32 sip) = true →
        e.mitigation.isBlocked sip now = true →
        ((e.processPacket now data sip dip sp dp ens tns).2 = false)
      ∧ ((e.processPacket now data sip dip sp dp ens tns).1.stats.packets_dropped
            = e.stats.packets_dropped + 1)
      ∧ ((e.processPacket now data sip dip sp dp ens tns).1.stats.packets_allowed
            = e.stats.packets_allowed)) := by
  constructor
  · intro e ip reason now
    simp [Engine.blockIP, BloomCache.add, BloomCache.contains]
  · intro e now data sip dip sp dp ens tns hw hc hb
    unfold Engine.processPacket
    dsimp only
    rw [if_neg (by simp [hw]), if_pos (by simp [hc, hb])]
    exact ⟨rfl, rfl, rfl⟩

/-- An engine on which an address was manually blocked (and never
whitelisted). -/
def blockedEngine : Engine :=
  sampleEngine.blockIP 42 .NONE 2

/-- C2 witness: on `blockedEngine` the amended claim applies — the
blocked cache holds the address (second fact also derived from the
blockIP conjunct of the theorem) and the packet from the blocked,
non-whitelisted source is dropped. -/
theorem C2_witness :
    ((sampleEngine.blockIP 42 .NONE 2).blocked_ips_cache.contains (toUint32 42) = true)
  ∧ ((blockedEngine.processPacket 3 [9] 42 7 1000 502 11 5).2 = false)
  ∧ ((blockedEngine.processPacket 3 [9] 42 7 1000 502 11 5).1.stats.packets_dropped
        = blockedEngine.stats.packets_dropped + 1)
  ∧ ((blockedEngine.processPacket 3 [9] 42 7 1000 502 11 5).1.stats.packets_allowed
        = blockedEngine.stats.packets_allowed) :=
  ⟨C2_amended_blocked_source_dropped.1 sampleEngine 42 .NONE 2,
   (C2_amended_blocked_source_dropped.2 blockedEngine 3 [9] 42 7 1000 502 11 5
      rfl rfl (by decide)).1,
   (C2_amended_blocked_source_dropped.2 blockedEngine 3 [9] 42 7 1000 502 11 5
      rfl rfl (by decide)).2.1,
   (C2_amended_blocked_source_dropped.2 blockedEngine 3 [9] 42 7 1000 502 11 5
      rfl rfl (by decide)).2.2⟩

/-- C9: `removeWhitelist` leaves the whitelist bloom cache unchanged
(the cache supports no removal and the fast path performs no
authoritative re-check), so any source the cache already holds — for
example one previously added by `addWhitelist` or seeded from the
configured whitelist — is still allowed through the whitelist fast path
(allow decision, `packets_allowed` incremented, no packet-latency
sample) after `removeWhitelist` has returned. -/
theorem C9_removeWhitelist_leaves_cache (e : Engine) (ip : Ipv4)
    (h : e.whitelisted_ips_cache.contains (toUint32 ip) = true)
    (n1 n2 : Nat) (data : List Nat) (dip : Ipv4) (sp dp ens tns : Nat) :
    ((e.removeWhitelist ip n1).whitelisted_ips_cache = e.whitelisted_ips_cache)
  ∧ (((e.removeWhitelist ip n1).processPacket n2 data ip dip sp dp ens tns).2 = true)
  ∧ (((e.removeWhitelist ip n1).processPacket n2 data ip dip sp dp ens tns).1.stats.packets_allowed
        = e.stats.packets_allowed + 1)
  ∧ (((e.removeWhitelist ip n1).processPacket n2 data ip dip sp dp ens tns).1.packet_latency
        = e.packet_latency) := by
  have hp : (e.removeWhitelist ip n1).processPacket n2 data ip dip sp dp ens tns
      = ({ e.removeWhitelist ip n1 with
            stats := (e.removeWhitelist ip n1).stats.incrementPacketsProcessed.incrementPacketsAllowed,
            throughput := (e.removeWhitelist ip n1).throughput.record data.length n2 }, true) := by
    unfold Engine.processPacket
    dsimp only
    rw [if_pos (show (e.removeWhitelist ip n1).whitelisted_ips_cache.contains (toUint32 ip) = true from h)]
  rw [hp]
  exact ⟨rfl, rfl, rfl, rfl⟩

/-- C9 witness: add 9 to the whitelist, remove it, and the packet from
source 9 is still allowed through the fast path. -/
theorem C9_witness :
    (((sampleEngine.addWhitelist 9 0).removeWhitelist 9 1).whitelisted_ips_cache
        = (sampleEngine.addWhitelist 9 0).whitelisted_ips_cache)
  ∧ ((((sampleEngine.addWhitelist 9 0).removeWhitelist 9 1).processPacket 2 [3] 9 4 1000 502 6 7).2
        = true)
  ∧ ((((sampleEngine.addWhitelist 9 0).removeWhitelist 9 1).processPacket 2 [3] 9 4 1000 502 6 7).1.stats.packets_allowed
        = (sampleEngine.addWhitelist 9 0).stats.packets_allowed + 1)
  ∧ ((((sampleEngine.addWhitelist 9 0).removeWhitelist 9 1).processPacket 2 [3] 9 4 1000 502 6 7).1.packet_latency
        = (sampleEngine.addWhitelist 9 0).packet_latency) :=
  C9_removeWhitelist_leaves_cache (sampleEngine.addWhitelist 9 0) 9 rfl 1 2 [3] 4 1000 502 6 7

/-- A configuration with an invalid validated field. -/
def invalidConfig : DetectionConfig := { dos_packet_threshold := 0 }

/-- C4 counterexample: with `dos_packet_threshold = 0` the validator
`isValid` reports the configuration invalid, yet engine construction
completes normally — the constructed engine stores the invalid
configuration unchanged and its logger is started — so the caller gets
no distinguishable rejection. -/
theorem C4_counterexample :
    (invalidConfig.isValid = false)
  ∧ ((Engine.init invalidConfig trivAnalyzer trivPrecheck trivIsModbus trivParse 0).config
        = invalidConfig)
  ∧ ((Engine.init invalidConfig trivAnalyzer trivPrecheck trivIsModbus trivParse 0).logger.running
        = true) :=
  ⟨rfl, rfl, rfl⟩

/-- C4 (amended): `isValid` identifies invalid configurations (false
when `dos_packet_threshold`, `dos_byte_threshold`,
`port_scan_threshold` or `max_concurrent_blocks` is zero), but the
constructor never invokes it: for every configuration it reports
invalid, construction still completes, storing the configuration
unchanged with the logger started; rejection is the responsibility of
the caller via `isValid` (the only construction failure in the source
is log-file I/O). -/
theorem C4_amended_constructor_skips_validation (cfg : DetectionConfig)
    (a : PacketMetadata → List ThreatAlert) (s : PacketMetadata → Bool)
    (m : List Nat → Bool) (pf : List Nat → Option PacketMetadata) (now : Nat)
    (h : cfg.isValid = false) :
    ((Engine.init cfg a s m pf now).config = cfg)
  ∧ ((Engine.init cfg a s m pf now).logger.running = true) :=
  ⟨rfl, rfl⟩

/-- C4 witness: the amended claim at the concrete invalid
configuration. -/
theorem C4_witness :
    ((Engine.init invalidConfig trivAnalyzer trivPrecheck trivIsModbus trivParse 3).config
        = invalidConfig)
  ∧ ((Engine.init invalidConfig trivAnalyzer trivPrecheck trivIsModbus trivParse 3).logger.running
        = true) :=
  C4_amended_constructor_skips_validation invalidConfig trivAnalyzer trivPrecheck
    trivIsModbus trivParse 3 rfl

/-- C5 counterexample: port 20000 is in the default `monitored_ports`,
yet `buildPacketMetadata` for a packet to port 20000 returns the
minimal metadata with protocol `UNKNOWN` — the parse step does not run
(the source tests only for port 502). -/
theorem C5_counterexample :
    (DetectionConfig.createDefault.monitored_ports.contains 20000 = true)
  ∧ (buildPacketMetadata trivIsModbus trivParse [1, 2, 3] 8 9 5000 20000 77
       = minimalMetadata [1, 2, 3] 8 9 5000 20000 77)
  ∧ ((buildPacketMetadata trivIsModbus trivParse [1, 2, 3] 8 9 5000 20000 77).protocol
       = ProtocolType.UNKNOWN) :=
  ⟨rfl, rfl, rfl⟩

/-- C5 (amended): the protocol parse branch runs if and only if the
destination or source port equals 502 — regardless of the configured
`monitored_ports` (which `buildPacketMetadata` never consults, so port
20000 of the default set gets no parsing); for any other port the
metadata is minimal (size, addresses, ports, timestamp only).  This
holds for every Modbus recogniser and parser behaviour. -/
theorem C5_amended_parse_iff_port_502 (im : List Nat → Bool)
    (pm : List Nat → Option PacketMetadata) (data : List Nat) (sip dip : Ipv4)
    (sp dp now : Nat) :
    (((buildPacketMetadata im pm data sip dip sp dp now).protocol = ProtocolType.MODBUS_TCP)
        ↔ (dp = 502 ∨ sp = 502))
  ∧ (¬(dp = 502 ∨ sp = 502) →
        buildPacketMetadata im pm data sip dip sp dp now
          = minimalMetadata data sip dip sp dp now) := by
  unfold buildPacketMetadata
  dsimp only
  by_cases hc : (dp == 502 || sp == 502) = true
  · rw [if_pos hc]
    have hor : dp = 502 ∨ sp = 502 := by simpa using hc
    exact ⟨⟨fun _ => hor, fun _ => rfl⟩, fun hn => absurd hor hn⟩
  · rw [if_neg hc]
    have hn : ¬(dp = 502 ∨ sp = 502) := by simpa using hc
    refine ⟨⟨fun hpm => ?_, fun hd => absurd hd hn⟩, fun _ => rfl⟩
    exact absurd hpm (by simp [minimalMetadata])

/-- C5 witness: ports (5000, 777) give the minimal metadata; port 502
triggers the Modbus branch. -/
theorem C5_witness :
    (¬((777 : Nat) = 502 ∨ (5000 : Nat) = 502))
  ∧ (buildPacketMetadata trivIsModbus trivParse [1] 2 3 5000 777 9
       = minimalMetadata [1] 2 3 5000 777 9)
  ∧ ((buildPacketMetadata trivIsModbus trivParse [1] 2 3 5000 502 9).protocol
       = ProtocolType.MODBUS_TCP) :=
  ⟨by decide,
   (C5_amended_parse_iff_port_502 trivIsModbus trivParse [1] 2 3 5000 777 9).2 (by decide),
   (C5_amended_parse_iff_port_502 trivIsModbus trivParse [1] 2 3 5000 502 9).1.mpr (Or.inl rfl)⟩

/-- The worker body invokes `processPacket` on each dequeued job, as
`PacketProcessor::workerThread` does (the latency-measurement
parameters are immaterial here). -/
def procJob : Engine → PacketJob → Engine × Bool := fun e j =>
  e.processPacket j.received_at j.data j.source_ip j.dest_ip j.source_port j.dest_port 0 0

/-- A concrete enqueued packet job. -/
def pendingJob : PacketJob :=
  { data := [1], source_ip := 5, dest_ip := 6, source_port := 1000, dest_port := 502 }

/-- C6 counterexample: with `running = false` (as after `stop()`), a
worker looking at a queue still holding a job exits immediately — no
decision is published and the job is left in the queue unprocessed,
refuting the claim that every enqueued job is dequeued and processed
before the workers exit. -/
theorem C6_counterexample :
    (Processor.workerThread false procJob sampleEngine [pendingJob]
        = (sampleEngine, [], [pendingJob]))
  ∧ ([pendingJob] ≠ ([] : List PacketJob)) :=
  ⟨rfl, by decide⟩

/-- C6 (amended): workers terminate as soon as they observe
`running = false`, regardless of queue contents — the loop guard tests
only the running flag, so jobs still enqueued are left unprocessed,
and `PacketProcessor::stop` merely clears the flag and joins, draining
nothing (there is no `drain_on_stop` option in the code). -/
theorem C6_amended_stop_does_not_drain :
    (∀ (proc : Engine → PacketJob → Engine × Bool) (e : Engine) (jobs : List PacketJob),
        Processor.workerThread false proc e jobs = (e, [], jobs))
  ∧ (∀ p : Processor,
        ((p.stop).queue = p.queue) ∧ ((p.stop).packets_processed = p.packets_processed)) := by
  constructor
  · intro proc e jobs
    cases jobs with
    | nil => rfl
    | cons j rest => rfl
  · intro p
    unfold Processor.stop
    split
    · exact ⟨rfl, rfl⟩
    · exact ⟨rfl, rfl⟩

/-- Single-submission behaviour of `submitPacket`: below capacity the
job is accepted and the drop counter untouched; at capacity the
submission is rejected, the drop counter advances by one and the queue
is unchanged. -/
lemma submitPacket_step (p : Processor) (d : List Nat) (si di : Ipv4) (sp dp now : Nat) :
    (p.queue.length < p.capacity →
        ((p.submitPacket d si di sp dp now).2 = true)
      ∧ ((p.submitPacket d si di sp dp now).1.packets_dropped_queue_full
            = p.packets_dropped_queue_full)
      ∧ ((p.submitPacket d si di sp dp now).1.queue.length = p.queue.length + 1)
      ∧ ((p.submitPacket d si di sp dp now).1.capacity = p.capacity))
  ∧ (¬ p.queue.length < p.capacity →
        ((p.submitPacket d si di sp dp now).2 = false)
      ∧ ((p.submitPacket d si di sp dp now).1.packets_dropped_queue_full
            = p.packets_dropped_queue_full + 1)
      ∧ ((p.submitPacket d si di sp dp now).1.queue = p.queue)
      ∧ ((p.submitPacket d si di sp dp now).1.capacity = p.capacity)) := by
  unfold Processor.submitPacket PacketQueue.enqueue
  dsimp only
  constructor
  · intro hlt
    rw [if_pos hlt]
    exact ⟨rfl, rfl, by simp, rfl⟩
  · intro hge
    rw [if_neg hge]
    exact ⟨rfl, rfl, rfl, rfl⟩

/-- Drop counting over iterated submissions: starting within capacity,
the queue-full counter advances by exactly the number of submissions
that exceed the remaining room. -/
lemma submitMany_drops :
    ∀ (reqs : List SubmitRequest) (p : Processor), p.queue.length ≤ p.capacity →
    (p.submitMany reqs).packets_dropped_queue_full
      = p.packets_dropped_queue_full + (p.queue.length + reqs.length - p.capacity) := by
  intro reqs
  induction reqs with
  | nil =>
    intro p h
    unfold Processor.submitMany
    simp only [List.length_nil]
    omega
  | cons r rest ih =>
    intro p h
    unfold Processor.submitMany
    obtain ⟨hok, hfull⟩ := submitPacket_step p r.data r.source_ip r.dest_ip r.source_port r.dest_port r.now
    by_cases hlt : p.queue.length < p.capacity
    · obtain ⟨_, g2, g3, g4⟩ := hok hlt
      have := ih (p.submitPacket r.data r.source_ip r.dest_ip r.source_port r.dest_port r.now).1
        (by rw [g3, g4]; omega)
      rw [this, g2, g3, g4]
      simp only [List.length_cons]
      omega
    · obtain ⟨_, g2, g3, g4⟩ := hfull hlt
      have := ih (p.submitPacket r.data r.source_ip r.dest_ip r.source_port r.dest_port r.now).1
        (by rw [g3, g4]; exact h)
      rw [this, g2, g3, g4]
      simp only [List.length_cons]
      omega

/-- C8: a submission against a full ingestion queue returns `false`
(queue full), leaves the queue unchanged (the packet is discarded, not
processed), and advances the queue-full drop counter by exactly one;
a successful submission leaves that counter unchanged; and submitting
more packets than the queue capacity without any dequeue rejects
exactly the excess — in particular at least one submission when the
count exceeds the capacity. -/
theorem C8_queue_full_drops (p : Processor) (d : List Nat) (si di : Ipv4)
    (sp dp now : Nat) (reqs : List SubmitRequest) (h : p.queue.length ≤ p.capacity) :
    (p.queue.length < p.capacity →
        ((p.submitPacket d si di sp dp now).2 = true)
      ∧ ((p.submitPacket d si di sp dp now).1.packets_dropped_queue_full
            = p.packets_dropped_queue_full))
  ∧ (¬ p.queue.length < p.capacity →
        ((p.submitPacket d si di sp dp now).2 = false)
      ∧ ((p.submitPacket d si di sp dp now).1.packets_dropped_queue_full
            = p.packets_dropped_queue_full + 1)
      ∧ ((p.submitPacket d si di sp dp now).1.queue = p.queue))
  ∧ ((p.submitMany reqs).packets_dropped_queue_full
        = p.packets_dropped_queue_full + (p.queue.length + reqs.length - p.capacity))
  ∧ (p.queue = [] → p.capacity < reqs.length →
        p.packets_dropped_queue_full + 1 ≤ (p.submitMany reqs).packets_dropped_queue_full) := by
  obtain ⟨hok, hfull⟩ := submitPacket_step p d si di sp dp now
  have hmany := submitMany_drops reqs p h
  refine ⟨fun hlt => ⟨(hok hlt).1, (hok hlt).2.1⟩,
          fun hge => ⟨(hfull hge).1, (hfull hge).2.1, (hfull hge).2.2.1⟩,
          hmany, fun hq hcap => ?_⟩
  rw [hmany, hq]
  simp only [List.length_nil]
  omega

/-- A processor instantiated at capacity 2 (the template parameter of
`PacketQueue`, 32768 in the production instantiation). -/
def smallProcessor : Processor := { capacity := 2 }

/-- Three submission requests, one more than `smallProcessor` has room
for. -/
def threeRequests : List SubmitRequest := [{}, {}, {}]

/-- C8 witness: on the empty capacity-2 processor the first submission
succeeds without touching the drop counter, and submitting three
requests without dequeue leaves the drop counter raised by the excess
(here one), hence at least one rejection. -/
theorem C8_witness :
    ((smallProcessor.submitPacket [] 0 0 0 0 0).2 = true)
  ∧ ((smallProcessor.submitPacket [] 0 0 0 0 0).1.packets_dropped_queue_full
        = smallProcessor.packets_dropped_queue_full)
  ∧ ((smallProcessor.submitMany threeRequests).packets_dropped_queue_full
        = smallProcessor.packets_dropped_queue_full
            + (smallProcessor.queue.length + threeRequests.length - smallProcessor.capacity))
  ∧ (smallProcessor.packets_dropped_queue_full + 1
        ≤ (smallProcessor.submitMany threeRequests).packets_dropped_queue_full) :=
  ⟨((C8_queue_full_drops smallProcessor [] 0 0 0 0 0 threeRequests (by decide)).1 (by decide)).1,
   ((C8_queue_full_drops smallProcessor [] 0 0 0 0 0 threeRequests (by decide)).1 (by decide)).2,
   (C8_queue_full_drops smallProcessor [] 0 0 0 0 0 threeRequests (by decide)).2.2.1,
   (C8_queue_full_drops smallProcessor [] 0 0 0 0 0 threeRequests (by decide)).2.2.2 rfl (by decide)⟩

end GridWatcher
